import Mathlib

/-!
Verification development for the StudyBuddy backend
(`backend/main.py`, `backend/config.py`, `backend/prompts.py`, `backend/rag.py`).

The handlers are shallowly embedded as pure Lean functions over an explicit
state (the module-level `conversation_history` and `feedback_store` lists).
External effects (the Gemini HTTP call, the vector-store search, wall-clock
timestamps) are passed in as explicit outcome parameters, and the embedded
`chat` handler additionally records which collaborators it invoked and the
exact prompt string it handed to the generation call, so that properties of
the orchestration pipeline can be stated.
-/

namespace StudyBuddy

/-! ## Prompt library (`backend/prompts.py`) -/

/-- prompts.py `SYSTEM_PROMPT`. -/
def SYSTEM_PROMPT : String :=
  "You are \"StudyBuddy\", an AI tutor and research assistant for students.\n\nCORE PRINCIPLES:\n1. NEVER give direct answers to homework or exam questions\n2. Guide students to discover answers themselves using the Socratic method\n3. Explain concepts clearly with examples and analogies\n4. Cite sources when using specific information\n5. Encourage critical thinking and curiosity\n\nRESPONSE GUIDELINES:\n- Ask clarifying questions if the query is vague\n- Break down complex topics into simpler parts\n- Suggest related topics for deeper learning\n- Provide step-by-step guidance for problem-solving\n- Recommend additional resources when helpful\n\nFORMATTING:\n- Use bullet points for lists\n- Use **bold** for key terms\n- Use `code blocks` for formulas/code\n- Keep paragraphs concise\n\nRemember: Your goal is to educate, not just answer. Foster independent learning skills."

/-- prompts.py `STUDY_TUTOR_PROMPT`. -/
def STUDY_TUTOR_PROMPT : String :=
  "You are in **Study Tutor Mode**. Focus on:\n- Explaining academic concepts from textbooks/courses\n- Creating study plans and schedules\n- Generating practice questions\n- Breaking down complex problems step-by-step\n- Identifying knowledge gaps\n\nAlways ask: \"What part are you finding challenging?\" before explaining."

/-- prompts.py `RESEARCH_ASSISTANT_PROMPT`. -/
def RESEARCH_ASSISTANT_PROMPT : String :=
  "You are in **Research Assistant Mode**. Focus on:\n- Helping formulate research questions\n- Explaining research methodologies\n- Summarizing academic papers\n- Suggesting relevant literature\n- Guiding proper citation (APA/MLA/Chicago)\n- Discussing ethical considerations\n\nEmphasize academic integrity and proper sourcing."

/-! ## Settings (`backend/config.py`)

Only the fields the orchestration logic reads are modelled; temperature,
token limits, network hosts, upload limits and chunking parameters flow only
into opaque external calls.  Defaults follow `config.py` (`GEMINI_API_KEY`
is a required environment variable with no default). -/

structure Settings where
  GEMINI_API_KEY : String
  MODEL_NAME : String
  MAX_HISTORY_LENGTH : Nat
  SEARCH_RESULTS : Nat
deriving Repr, DecidableEq

/-- A settings value with the `config.py` defaults (`MODEL_NAME =
"gemini-2.5-flash-lite"`, `MAX_HISTORY_LENGTH = 50`, `SEARCH_RESULTS = 3`)
and a configured (non-empty) API key, used for concrete runs. -/
def testSettings : Settings :=
  { GEMINI_API_KEY := "test-key"
    MODEL_NAME := "gemini-2.5-flash-lite"
    MAX_HISTORY_LENGTH := 50
    SEARCH_RESULTS := 3 }

/-! ## Python primitives

`str.strip()` and the negative-index slice `xs[-n:]` are modelled
explicitly so that every theorem can be evaluated by the kernel. -/

/-- Python whitespace for `str.strip()` (ASCII subset actually relevant
to the handlers). -/
def isPySpace (c : Char) : Bool :=
  c == ' ' || c == '\t' || c == '\n' || c == '\x0D' || c == '\x0B' || c == '\x0C'

/-- Python `s.strip()`: drop leading and trailing whitespace. -/
def pyStrip (s : String) : String :=
  String.mk (((s.toList.dropWhile isPySpace).reverse.dropWhile isPySpace).reverse)

/-- Python `xs[-n:]`: the last `n` elements, all of `xs` when `n = 0`
(because `xs[-0:]` is `xs[0:]`) or when `n` exceeds the length. -/
def pySliceLast {α : Type} (xs : List α) (n : Nat) : List α :=
  if n = 0 then xs else xs.drop (xs.length - n)

/-! ## Data model -/

/-- One entry of the module-level `conversation_history` list (a Python dict
built in `chat`, main.py lines 271-278 and 319-326).  `use_rag` is present
only on user turns and `model` only on assistant turns, hence the `Option`s.
Timestamps are abstracted to a `Nat` supplied by the caller. -/
structure Turn where
  id : Nat
  role : String
  message : String
  mode : String
  timestamp : Nat
  use_rag : Option Bool
  model : Option String
deriving Repr, DecidableEq

/-- The validated body of `POST /chat` (pydantic model `ChatMessage`,
main.py lines 45-48). -/
structure ChatMessage where
  message : String
  mode : String
  use_rag : Bool
deriving Repr, DecidableEq

/-- The validated body of `POST /feedback` (pydantic model `Feedback`,
main.py lines 54-57). -/
structure Feedback where
  rating : Nat
  comment : Option String
  message_id : Option Nat
deriving Repr, DecidableEq

/-- One entry of the module-level `feedback_store` list (main.py
lines 434-438). -/
structure FeedbackEntry where
  rating : Nat
  comment : Option String
  message_id : Option Nat
  timestamp : Nat
  conversation_length : Nat
deriving Repr, DecidableEq

/-- A FastAPI `HTTPException` (status code and detail), which the
registered exception handler turns into a JSON error response with the
same status code (main.py lines 495-504). -/
structure HTTPError where
  status_code : Nat
  detail : String
deriving Repr, DecidableEq

/-! ## Helper functions of `main.py` -/

/-- main.py `build_system_prompt` (lines 64-71). -/
def build_system_prompt (mode : String) : String :=
  if mode = "study" then SYSTEM_PROMPT ++ "\n\n" ++ STUDY_TUTOR_PROMPT
  else if mode = "research" then SYSTEM_PROMPT ++ "\n\n" ++ RESEARCH_ASSISTANT_PROMPT
  else SYSTEM_PROMPT

/-- main.py `format_conversation_history` (lines 73-83): the last
`max_messages` entries of the given list (Python `messages[-max_messages:]`)
rendered as `Student:`/`Tutor:` lines joined by newlines.  The call in
`chat` always uses the default `max_messages = 4`. -/
def format_conversation_history (messages : List Turn) (max_messages : Nat) : String :=
  if messages = [] then ""
  else
    String.intercalate "\n"
      ((pySliceLast messages max_messages).map (fun msg =>
        (if msg.role = "user" then "Student" else "Tutor") ++ ": " ++ msg.message))

/-- main.py `get_fallback_response` (lines 147-191). -/
def get_fallback_response (mode : String) : String :=
  if mode = "study" then
    "I\x27m here to help you study! Try these techniques:\n\n📚 **Active Learning Strategies:**\n1. **Spaced Repetition**: Review material at increasing intervals\n2. **Interleaving**: Mix different subjects/topics in a study session\n3. **Elaboration**: Explain concepts in your own words\n4. **Retrieval Practice**: Test yourself without looking at notes\n\nWhat specific topic would you like help with?"
  else if mode = "research" then
    "**Academic Research Assistance:**\n\n🔍 **Research Process:**\n1. **Question Formulation**: Start with a clear, focused research question\n2. **Literature Review**: Use databases like Google Scholar, PubMed, IEEE Xplore\n3. **Source Evaluation**: Consider credibility, relevance, and currency\n4. **Citation Management**: Use tools like Zotero or Mendeley\n\n📝 **Need help with:**\n- Finding relevant sources?\n- Understanding methodology?\n- Writing literature review?\n- Proper citation formatting?"
  else
    "Hello! I\x27m your AI StudyBuddy. I can help you with:\n\n🎯 **Learning Support:**\n- Understanding complex concepts\n- Solving problems step-by-step\n- Creating study plans\n- Generating practice questions\n- Research assistance\n\n💡 **How to get the best help:**\n1. Be specific about what you\x27re working on\n2. Share what you\x27ve tried so far\n3. Ask about particular concepts you find challenging\n4. Request examples or analogies\n\nWhat would you like to learn today?"

/-! ## Retrieval Collaborator (`backend/rag.py`)

`SimpleRAG.search` wraps the vector store and converts any exception from
it into an empty result list (rag.py lines 111-136), so from the point of
view of `query_with_context` the search yields a (possibly empty) list of
formatted snippets.  The relevance score is a float rendered with `:.2f`;
floats play no computational role here, so the already-rendered score
string is carried. -/

/-- One formatted search result as produced by `SimpleRAG.search`
(rag.py lines 121-133), restricted to the fields `query_with_context`
reads.  `score` is the `:.2f`-rendered `relevance_score`. -/
structure Snippet where
  content : String
  filename : String
  score : String
deriving Repr, DecidableEq

/-- Outcome of the retrieval call made inside `chat`.  `snippets rs`
means `SimpleRAG.search` returned the list `rs` (it returns `[]` both for
genuinely empty results and for backend failures, which it catches);
`exn` means an exception escaped inside `query_with_context` itself,
which its own handler turns into a static string (rag.py lines 155-157). -/
inductive RagOutcome where
  | snippets (rs : List Snippet)
  | exn
deriving Repr, DecidableEq

/-- rag.py `SimpleRAG.query_with_context` (lines 138-157): an empty result
list yields the fixed sentence `No relevant context found in knowledge
base.`; otherwise the snippets are rendered with source filename and
relevance score and joined by `---` separators. -/
def query_with_context (rag : RagOutcome) : String :=
  match rag with
  | .exn => "Unable to retrieve context at this time."
  | .snippets [] => "No relevant context found in knowledge base."
  | .snippets rs =>
      String.intercalate "\n---\n"
        (rs.map (fun r =>
          "[Source: " ++ r.filename ++ ", Relevance: " ++ r.score ++ "]\n" ++ r.content ++ "\n"))

/-! ## Generation Collaborator (`backend/main.py`, `call_gemini_api`) -/

/-- Outcome of the HTTP exchange performed by `call_gemini_api`
(main.py lines 123-145): the upstream call may succeed with a 200 whose
payload carries `text`, time out, return a non-2xx status with an error
message, return a 200 whose payload lacks the expected fields, or fail at
the transport level. -/
inductive GenOutcome where
  | success (text : String)
  | timeout
  | upstreamError (status : Nat) (msg : String)
  | malformedPayload (msg : String)
  | networkError (msg : String)
deriving Repr, DecidableEq

/-- Whether the upstream exchange produced a usable 200 payload. -/
def genSucceeds : GenOutcome → Bool
  | .success _ => true
  | _ => false

/-- main.py `call_gemini_api` (lines 85-145) viewed as a function of the
upstream outcome.  Every failure is converted into a raised
`HTTPException`, modelled as `.error`:
* a timeout raises `HTTPException(504, "Request timeout")` (line 143);
* a non-2xx response raises `HTTPException(status, "Gemini API error: …")`
  at line 137 — but that raise sits inside the `try`, so it is caught by
  the `except Exception` clause at line 144 (FastAPI HTTPException is an
  Exception subclass) and re-wrapped as
  `HTTPException(500, "API call failed: <status>: Gemini API error: …")`;
* a malformed 200 payload raises a KeyError or IndexError at line 134,
  caught at line 144 and wrapped as a 500;
* any transport error is likewise wrapped as a 500 at line 145.
In particular this function never returns a fallback text: it either
returns the generated text or raises an `HTTPException`. -/
def call_gemini_api (gen : GenOutcome) : Except HTTPError String :=
  match gen with
  | .success text => .ok text
  | .timeout => .error { status_code := 504, detail := "Request timeout" }
  | .upstreamError status msg =>
      .error { status_code := 500
               detail := "API call failed: " ++ toString status ++ ": Gemini API error: " ++ msg }
  | .malformedPayload msg =>
      .error { status_code := 500, detail := "API call failed: " ++ msg }
  | .networkError msg =>
      .error { status_code := 500, detail := "API call failed: " ++ msg }

/-! ## The `/chat` handler (`backend/main.py` lines 254-341) -/

/-- The JSON body returned by a successful `/chat` call
(main.py lines 333-341). -/
structure ChatOk where
  response : String
  message_id : Nat
  mode : String
  model : String
  timestamp : Nat
  conversation_length : Nat
  rag_used : Bool
deriving Repr, DecidableEq

/-- Result of one `/chat` invocation: the conversation log after the
handler finishes, the HTTP result (a 200 body or a raised
`HTTPException`), plus two observations used to state collaborator
properties: whether the Retrieval Collaborator was invoked, and the exact
prompt handed to `call_gemini_api` (`none` when the handler never reached
the generation call). -/
structure ChatResult where
  conversation_history : List Turn
  response : Except HTTPError ChatOk
  ragInvoked : Bool
  promptSent : Option String
deriving Repr

/-- The user turn dict appended at main.py lines 271-279. -/
def mkUserTurn (history : List Turn) (chat_data : ChatMessage) (t1 : Nat) : Turn :=
  { id := history.length + 1
    role := "user"
    message := chat_data.message
    mode := chat_data.mode
    timestamp := t1
    use_rag := some chat_data.use_rag
    model := none }

/-- The assistant turn dict appended at main.py lines 319-327. -/
def mkAiTurn (s : Settings) (h1 : List Turn) (chat_data : ChatMessage)
    (ai_response : String) (t2 : Nat) : Turn :=
  { id := h1.length + 1
    role := "assistant"
    message := ai_response
    mode := chat_data.mode
    timestamp := t2
    use_rag := none
    model := some s.MODEL_NAME }

/-- main.py lines 329-331: after appending, the log is cut to its last
`MAX_HISTORY_LENGTH` entries whenever it is strictly longer than that. -/
def trim_history (s : Settings) (xs : List Turn) : List Turn :=
  if s.MAX_HISTORY_LENGTH < xs.length then pySliceLast xs s.MAX_HISTORY_LENGTH else xs

/-- The retrieval-context string computed at main.py lines 287-294:
when retrieval runs, the `query_with_context` result is wrapped in the
`[Relevant context from uploaded documents]` block only if it is nonempty
and differs from the no-results sentence; otherwise the raw string
(including the no-results sentence itself) is kept. -/
def mk_rag_context (invoked : Bool) (rag : RagOutcome) : String :=
  if invoked then
    let rc := query_with_context rag
    if rc ≠ "" ∧ rc ≠ "No relevant context found in knowledge base." then
      "\n\n[Relevant context from uploaded documents]:\n" ++ rc ++ "\n"
    else rc
  else ""

/-- The final prompt assembled at main.py lines 297-305. -/
def mk_final_prompt (system_prompt rag_context history_context message : String) : String :=
  system_prompt ++ "\n\n" ++ rag_context ++ "\n\n" ++ history_context ++
    "\n\nStudent: " ++ message ++ "\n\nTutor:"

/-- Tail of the `chat` handler once `ai_response` is known (main.py
lines 318-341): append the assistant turn, trim the log, and build the
200 body. -/
def finishChat (s : Settings) (h1 : List Turn) (chat_data : ChatMessage)
    (ai_response : String) (ragInvoked : Bool) (promptSent : Option String)
    (t2 : Nat) : ChatResult :=
  let ai_message := mkAiTurn s h1 chat_data ai_response t2
  let h2 := h1 ++ [ai_message]
  let h3 := trim_history s h2
  { conversation_history := h3
    response := .ok
      { response := ai_response
        message_id := ai_message.id
        mode := chat_data.mode
        model := s.MODEL_NAME
        timestamp := t2
        conversation_length := h3.length
        rag_used := chat_data.use_rag }
    ragInvoked := ragInvoked
    promptSent := promptSent }

/-- main.py `chat` (lines 254-341) as a function of the conversation log
and the outcomes of the external calls.

Parameters beyond the request body:
* `ragSystem` — truthiness of the module-level `rag_system` singleton
  checked at line 288 (rag.py line 188 always constructs it, so it is
  `true` in the running app);
* `rag` — outcome of the retrieval call, consulted only when retrieval
  is invoked;
* `exc` — `some msg` models a non-`HTTPException` `Exception` raised
  inside the `try` block of lines 281-312 before any external call.  Only
  such an exception can reach the `except Exception` clause at line 313
  and substitute the fallback response, because `call_gemini_api` only
  ever raises `HTTPException` and `query_with_context` catches its own
  exceptions; the `except HTTPException` clause at line 310 re-raises.
* `gen` — outcome of the upstream generation exchange;
* `t1`, `t2` — timestamps for the user and assistant turns.

Control flow mirrored from the source: empty-after-strip message → 400
(lines 260-261); missing API key → 500 (lines 264-268); append the user
turn (line 279); build prompt and call the API (lines 281-308); a raised
`HTTPException` from the generation call propagates (lines 310-312) with
the log left holding the user turn only; otherwise the assistant turn
(generated text or fallback) is appended, the log trimmed, and a 200 body
returned (lines 313-341). -/
def chat (s : Settings) (ragSystem : Bool) (history : List Turn)
    (chat_data : ChatMessage) (rag : RagOutcome) (exc : Option String)
    (gen : GenOutcome) (t1 t2 : Nat) : ChatResult :=
  if pyStrip chat_data.message = "" then
    { conversation_history := history
      response := .error { status_code := 400, detail := "Message cannot be empty" }
      ragInvoked := false
      promptSent := none }
  else if s.GEMINI_API_KEY = "" then
    { conversation_history := history
      response := .error
        { status_code := 500
          detail := "Gemini API key not configured. Please set GEMINI_API_KEY in .env file." }
      ragInvoked := false
      promptSent := none }
  else
    let h1 := history ++ [mkUserTurn history chat_data t1]
    match exc with
    | some _ =>
        -- `except Exception` branch (lines 313-316): fallback response.
        finishChat s h1 chat_data (get_fallback_response chat_data.mode) false none t2
    | none =>
        let system_prompt := build_system_prompt chat_data.mode
        let history_context := format_conversation_history h1 4
        let ragInvoked := chat_data.use_rag && ragSystem
        let rag_context := mk_rag_context ragInvoked rag
        let final_prompt := mk_final_prompt system_prompt rag_context history_context chat_data.message
        match call_gemini_api gen with
        | .error e =>
            -- `except HTTPException` branch (lines 310-312): re-raised, so the
            -- handler exits with the user turn appended and no trimming.
            { conversation_history := h1
              response := .error e
              ragInvoked := ragInvoked
              promptSent := some final_prompt }
        | .ok text =>
            finishChat s h1 chat_data text ragInvoked (some final_prompt) t2

/-! ## The remaining stateful handlers -/

/-- The JSON body returned by `GET /history` (main.py lines 466-472). -/
structure HistoryOk where
  messages : List Turn
  total : Nat
  limit : Nat
  offset : Nat
  has_more : Bool
deriving Repr, DecidableEq

/-- main.py `get_history` (lines 452-472): optional mode filter, then the
Python slice `filtered_history[offset : offset + limit]` (for the
non-negative `limit`/`offset` values the claims are about, this is
drop-then-take from the FRONT of the append-ordered list).  Defaults in
the route are `limit = 20`, `offset = 0`, `mode = None`. -/
def get_history (history : List Turn) (limit offset : Nat) (mode : Option String) :
    HistoryOk :=
  let filtered_history := match mode with
    | some m => history.filter (fun (msg : Turn) => msg.mode == m)
    | none => history
  let paginated_history := (filtered_history.drop offset).take limit
  { messages := paginated_history
    total := filtered_history.length
    limit := limit
    offset := offset
    has_more := decide (offset + limit < filtered_history.length) }

/-- The JSON body returned by `DELETE /history` (main.py lines 488-492). -/
structure ClearOk where
  success : Bool
  cleared_count : Nat
deriving Repr, DecidableEq

/-- main.py `clear_history` (lines 474-492): without `confirm` it raises
`HTTPException(400)` before touching the log; with `confirm` it records
the prior length, empties the log and reports that length. -/
def clear_history (history : List Turn) (confirm : Bool) :
    List Turn × Except HTTPError ClearOk :=
  if !confirm then
    (history,
      .error { status_code := 400
               detail := "Must confirm deletion by adding ?confirm=true to URL" })
  else
    ([], .ok { success := true, cleared_count := history.length })

/-- The JSON body `submit_feedback` would return on success
(main.py lines 446-450). -/
structure FeedbackOk where
  success : Bool
  message : String
  feedback_id : Nat
deriving Repr, DecidableEq

/-- main.py `submit_feedback` (lines 431-450).  The function body assigns
`feedback_store = feedback_store[-100:]` at line 444 without declaring
`global feedback_store`, so Python treats `feedback_store` as a local
variable throughout the function body; the earlier
`feedback_store.append(feedback_entry)` at line 440 therefore raises
`UnboundLocalError` on every invocation, before anything is appended.
The catch-all `Exception` handler at main.py lines 506-515 converts the
escaped exception into a 500 response whose body reports
`Internal server error`.  The module-level `feedback_store` list is never
modified.  This is embedded directly: the handler always errors with
status 500 and leaves the store unchanged. -/
def submit_feedback (store : List FeedbackEntry) (feedback : Feedback)
    (t conversationLength : Nat) : List FeedbackEntry × Except HTTPError FeedbackOk :=
  (store, .error { status_code := 500, detail := "Internal server error" })

/-- What the `submit_feedback` body (main.py lines 431-450) would compute
if `feedback_store` were declared `global` (as `conversation_history` is
in `chat` and `clear_history`): append the entry, cut the store to its
last 100 entries when it is longer than 100, and report the resulting
length as `feedback_id`.  Kept for comparison with the spec, which
describes this intended behaviour. -/
def submit_feedback_intended (store : List FeedbackEntry) (feedback : Feedback)
    (t conversationLength : Nat) : List FeedbackEntry × Except HTTPError FeedbackOk :=
  let feedback_entry : FeedbackEntry :=
    { rating := feedback.rating
      comment := feedback.comment
      message_id := feedback.message_id
      timestamp := t
      conversation_length := conversationLength }
  let st1 := store ++ [feedback_entry]
  let st2 := if 100 < st1.length then pySliceLast st1 100 else st1
  (st2, .ok { success := true, message := "Thank you for your feedback!", feedback_id := st2.length })

/-! ## Whole-application state and reachability -/

/-- The module-level mutable state of `main.py` (lines 59-61). -/
structure AppState where
  conversation_history : List Turn
  feedback_store : List FeedbackEntry
deriving Repr, DecidableEq

/-- One inbound request to a state-touching endpoint, together with the
outcomes of the external calls it triggers.  `GET /`, `GET /health`,
`GET /rag/stats` and `POST /upload` never touch `conversation_history` or
`feedback_store`, and `GET /history` only reads, so chat, history-get,
history-delete and feedback cover every way the modelled state evolves. -/
inductive Request where
  | chatPost (chat_data : ChatMessage) (rag : RagOutcome) (exc : Option String)
      (gen : GenOutcome) (t1 t2 : Nat)
  | historyGet (limit offset : Nat) (mode : Option String)
  | historyDelete (confirm : Bool)
  | feedbackPost (feedback : Feedback) (t : Nat)
deriving Repr

/-- State transition of one handled request (`rag_system` is the always
constructed singleton of rag.py line 188, so `chat` runs with
`ragSystem = true`). -/
def step (s : Settings) (st : AppState) (r : Request) : AppState :=
  match r with
  | .chatPost chat_data rag exc gen t1 t2 =>
      { st with conversation_history :=
          (chat s true st.conversation_history chat_data rag exc gen t1 t2).conversation_history }
  | .historyGet _ _ _ => st
  | .historyDelete confirm =>
      { st with conversation_history := (clear_history st.conversation_history confirm).1 }
  | .feedbackPost feedback t =>
      { st with feedback_store :=
          (submit_feedback st.feedback_store feedback t st.conversation_history.length).1 }

/-- The state after serving `reqs` in order from a fresh process
(both logs start empty, main.py lines 60-61). -/
def run (s : Settings) (reqs : List Request) : AppState :=
  reqs.foldl (step s) { conversation_history := [], feedback_store := [] }

/-! ## Turn-id predicates -/

/-- Each element is exactly one more than its predecessor. -/
def contiguousFrom : List Nat → Bool
  | [] => true
  | [_] => true
  | a :: b :: rest => (a + 1 = b : Bool) && contiguousFrom (b :: rest)

/-- Strictly increasing adjacent pairs. -/
def strictChain : List Nat → Bool
  | [] => true
  | [_] => true
  | a :: b :: rest => (decide (a < b)) && strictChain (b :: rest)

/-- The Turn ids of a log window are contiguous (each id one more than
its predecessor). -/
def idsContiguous (h : List Turn) : Bool :=
  contiguousFrom (h.map Turn.id)

/-- The Turn ids of a log window are strictly increasing. -/
def idsStrictMono (h : List Turn) : Bool :=
  strictChain (h.map Turn.id)

/-- Whether a given `/chat` invocation reaches the trimming statement and
actually trims: it must pass both validations, reach the
assistant-append (fallback or generated text — a re-raised generation
`HTTPException` exits first), and push the log beyond
`MAX_HISTORY_LENGTH`. -/
def chatTrims (s : Settings) (hist : List Turn) (chat_data : ChatMessage)
    (exc : Option String) (gen : GenOutcome) : Bool :=
  (!(pyStrip chat_data.message = "" : Bool)) &&
  (!(s.GEMINI_API_KEY = "" : Bool)) &&
  (exc.isSome || genSucceeds gen) &&
  decide (s.MAX_HISTORY_LENGTH < hist.length + 2)

/-- Conversation-log states reachable from a fresh process by requests
none of which ever triggered the history trim (`GET /history` and
`POST /feedback` never touch the conversation log, see `step`). -/
inductive ReachableNoTrim (s : Settings) : List Turn → Prop where
  | init : ReachableNoTrim s []
  | chatStep (hist : List Turn) (chat_data : ChatMessage) (rag : RagOutcome)
      (exc : Option String) (gen : GenOutcome) (t1 t2 : Nat) :
      ReachableNoTrim s hist →
      chatTrims s hist chat_data exc gen = false →
      ReachableNoTrim s (chat s true hist chat_data rag exc gen t1 t2).conversation_history
  | clearStep (hist : List Turn) (confirm : Bool) :
      ReachableNoTrim s hist →
      ReachableNoTrim s (clear_history hist confirm).1

/-! ## Concrete fixtures for witnesses and counterexamples -/

/-- A `/chat` request whose generation call succeeds. -/
def goodChatReq : Request :=
  .chatPost { message := "m", mode := "general", use_rag := false }
    (.snippets []) none (.success "r") 0 0

/-- A `/chat` request whose generation call times out upstream. -/
def badChatReq : Request :=
  .chatPost { message := "m", mode := "general", use_rag := false }
    (.snippets []) none .timeout 0 0

/-- Twenty-seven successful chats: enough for the history trim to have
fired and for the next ids (current length + 1) to collide with ids still
in the window. -/
def C4trace : List Request := List.replicate 27 goodChatReq

/-- Twenty-five successful chats fill the log to exactly
`MAX_HISTORY_LENGTH = 50`; one more chat whose generation call times out
then appends a user turn and re-raises before the trim. -/
def C5trace : List Request := List.replicate 25 goodChatReq ++ [badChatReq]

/-- The user turn of a two-turn log (spec §8 scenario). -/
def C7_user_turn : Turn :=
  { id := 1, role := "user", message := "What is a derivative?", mode := "study"
    timestamp := 0, use_rag := some false, model := none }

/-- The assistant turn of a two-turn log (spec §8 scenario). -/
def C7_assistant_turn : Turn :=
  { id := 2, role := "assistant", message := "A derivative measures change."
    mode := "study", timestamp := 1, use_rag := none, model := some "gemini-2.5-flash-lite" }

/-- A one-turn log used to observe that rejected requests leave the log
alone. -/
def C10_history : List Turn :=
  [{ id := 1, role := "user", message := "hi", mode := "general"
     timestamp := 0, use_rag := some false, model := none }]

/-- Settings with no `GEMINI_API_KEY` configured. -/
def noKeySettings : Settings := { testSettings with GEMINI_API_KEY := "" }

/-! ## Helper lemmas -/

theorem range'_one_snoc (n : Nat) :
    List.range' 1 n ++ [n + 1] = List.range' 1 (n + 1) := by
  rw [List.range'_1_concat]
  simp [Nat.add_comm]

theorem range'_one_snoc2 (n : Nat) :
    List.range' 1 n ++ [n + 1, n + 2] = List.range' 1 (n + 2) := by
  have h : List.range' 1 n ++ [n + 1, n + 2] =
      (List.range' 1 n ++ [n + 1]) ++ [(n + 1) + 1] := by simp
  rw [h, range'_one_snoc n, range'_one_snoc (n + 1)]

theorem contiguousFrom_range' (n : Nat) : ∀ s : Nat, contiguousFrom (List.range' s n) = true := by
  induction n with
  | zero => intro s; simp [contiguousFrom]
  | succ k ih =>
      intro s
      cases k with
      | zero => simp [List.range'_succ, contiguousFrom]
      | succ m =>
          have h2 := ih (s + 1)
          rw [List.range'_succ] at h2
          rw [List.range'_succ, List.range'_succ]
          simp only [contiguousFrom, Bool.and_eq_true, decide_eq_true_eq]
          exact ⟨trivial, h2⟩

theorem strictChain_of_contiguous : ∀ l : List Nat, contiguousFrom l = true → strictChain l = true := by
  intro l
  induction l with
  | nil => intro _; rfl
  | cons a t ih =>
      cases t with
      | nil => intro _; rfl
      | cons b t2 =>
          simp only [contiguousFrom, strictChain, Bool.and_eq_true, decide_eq_true_eq]
          rintro ⟨h1, h2⟩
          refine ⟨by omega, ?_⟩
          have := ih (by simpa [contiguousFrom] using h2)
          simpa [strictChain] using this

theorem chat_empty_message {s : Settings} {ragSystem : Bool} {history : List Turn}
    {chat_data : ChatMessage} (rag : RagOutcome) (exc : Option String) (gen : GenOutcome)
    (t1 t2 : Nat) (hm : pyStrip chat_data.message = "") :
    chat s ragSystem history chat_data rag exc gen t1 t2 =
      { conversation_history := history
        response := .error { status_code := 400, detail := "Message cannot be empty" }
        ragInvoked := false
        promptSent := none } := by
  simp [chat, hm]

theorem chat_no_key {s : Settings} {ragSystem : Bool} {history : List Turn}
    {chat_data : ChatMessage} (rag : RagOutcome) (exc : Option String) (gen : GenOutcome)
    (t1 t2 : Nat) (hm : ¬ pyStrip chat_data.message = "") (hk : s.GEMINI_API_KEY = "") :
    chat s ragSystem history chat_data rag exc gen t1 t2 =
      { conversation_history := history
        response := .error
          { status_code := 500
            detail := "Gemini API key not configured. Please set GEMINI_API_KEY in .env file." }
        ragInvoked := false
        promptSent := none } := by
  simp [chat, hm, hk]

theorem chat_exotic {s : Settings} {ragSystem : Bool} {history : List Turn}
    {chat_data : ChatMessage} (rag : RagOutcome) (m : String) (gen : GenOutcome)
    (t1 t2 : Nat) (hm : ¬ pyStrip chat_data.message = "") (hk : ¬ s.GEMINI_API_KEY = "") :
    chat s ragSystem history chat_data rag (some m) gen t1 t2 =
      finishChat s (history ++ [mkUserTurn history chat_data t1]) chat_data
        (get_fallback_response chat_data.mode) false none t2 := by
  simp [chat, hm, hk]

theorem chat_gen_error {s : Settings} {ragSystem : Bool} {history : List Turn}
    {chat_data : ChatMessage} (rag : RagOutcome) {gen : GenOutcome}
    (t1 t2 : Nat) (hm : ¬ pyStrip chat_data.message = "") (hk : ¬ s.GEMINI_API_KEY = "")
    {e : HTTPError} (hgen : call_gemini_api gen = .error e) :
    chat s ragSystem history chat_data rag none gen t1 t2 =
      { conversation_history := history ++ [mkUserTurn history chat_data t1]
        response := .error e
        ragInvoked := chat_data.use_rag && ragSystem
        promptSent := some (mk_final_prompt (build_system_prompt chat_data.mode)
          (mk_rag_context (chat_data.use_rag && ragSystem) rag)
          (format_conversation_history (history ++ [mkUserTurn history chat_data t1]) 4)
          chat_data.message) } := by
  simp [chat, hm, hk, hgen]

theorem chat_gen_ok {s : Settings} {ragSystem : Bool} {history : List Turn}
    {chat_data : ChatMessage} (rag : RagOutcome) {gen : GenOutcome}
    (t1 t2 : Nat) (hm : ¬ pyStrip chat_data.message = "") (hk : ¬ s.GEMINI_API_KEY = "")
    {text : String} (hgen : call_gemini_api gen = .ok text) :
    chat s ragSystem history chat_data rag none gen t1 t2 =
      finishChat s (history ++ [mkUserTurn history chat_data t1]) chat_data text
        (chat_data.use_rag && ragSystem)
        (some (mk_final_prompt (build_system_prompt chat_data.mode)
          (mk_rag_context (chat_data.use_rag && ragSystem) rag)
          (format_conversation_history (history ++ [mkUserTurn history chat_data t1]) 4)
          chat_data.message)) t2 := by
  simp [chat, hm, hk, hgen]

theorem reachableNoTrim_ids {s : Settings} {h : List Turn} (hr : ReachableNoTrim s h) :
    h.map Turn.id = List.range' 1 h.length := by
  induction hr with
  | init => simp
  | clearStep hist confirm hr ih =>
      cases confirm
      · simpa [clear_history] using ih
      · simp [clear_history]
  | chatStep hist chat_data rag exc gen t1 t2 hr htrim ih =>
      by_cases hm : pyStrip chat_data.message = ""
      · rw [chat_empty_message rag exc gen t1 t2 hm]
        exact ih
      by_cases hk : s.GEMINI_API_KEY = ""
      · rw [chat_no_key rag exc gen t1 t2 hm hk]
        exact ih
      cases exc with
      | some m =>
          have hle : ¬ (s.MAX_HISTORY_LENGTH < hist.length + 2) := by
            intro hlt
            apply absurd htrim
            simp [chatTrims, hm, hk, hlt]
          rw [chat_exotic rag m gen t1 t2 hm hk]
          simp only [finishChat, trim_history]
          rw [if_neg (by simp only [List.length_append, List.length_cons, List.length_nil]; omega)]
          simp only [List.map_append, List.map_cons, List.map_nil, mkUserTurn, mkAiTurn,
            List.length_append, List.length_cons, List.length_nil, Nat.zero_add, Nat.add_zero]
          rw [ih]
          simpa [List.append_assoc, Nat.add_assoc] using range'_one_snoc2 hist.length
      | none =>
          cases hgen : call_gemini_api gen with
          | error e =>
              rw [chat_gen_error rag t1 t2 hm hk hgen]
              simp only [List.map_append, List.map_cons, List.map_nil, mkUserTurn,
                List.length_append, List.length_cons, List.length_nil]
              rw [ih]
              exact range'_one_snoc hist.length
          | ok text =>
              have hsucc : genSucceeds gen = true := by
                cases gen <;> simp [call_gemini_api] at hgen <;> rfl
              have hle : ¬ (s.MAX_HISTORY_LENGTH < hist.length + 2) := by
                intro hlt
                apply absurd htrim
                simp [chatTrims, hm, hk, hlt, hsucc]
              rw [chat_gen_ok rag t1 t2 hm hk hgen]
              simp only [finishChat, trim_history]
              rw [if_neg (by simp only [List.length_append, List.length_cons, List.length_nil]; omega)]
              simp only [List.map_append, List.map_cons, List.map_nil, mkUserTurn, mkAiTurn,
                List.length_append, List.length_cons, List.length_nil, Nat.zero_add, Nat.add_zero]
              rw [ih]
              simpa [List.append_assoc, Nat.add_assoc] using range'_one_snoc2 hist.length

/-! ## Claim theorems -/

/-- C1: the claim says a validated `/chat` request whose generation call
fails (timeout, non-2xx, malformed payload, network error) still returns
HTTP 200 with the mode-specific fallback text.  The code does the
opposite: `call_gemini_api` turns every such failure into a raised
`HTTPException` (504 for a timeout, 500 otherwise), and `chat`'s
`except HTTPException` clause re-raises it before the fallback branch can
run, so the caller receives that error and never a 200 body.  This
theorem evaluates the code on that path: for every validated request and
every failing generation outcome, the handler result is exactly the
`HTTPException` produced by `call_gemini_api` and is not `.ok` with any
body (in particular not the fallback). -/
theorem C1_generation_failure_returns_error_not_fallback
    (s : Settings) (ragSystem : Bool) (history : List Turn) (chat_data : ChatMessage)
    (rag : RagOutcome) (gen : GenOutcome) (t1 t2 : Nat)
    (hm : ¬ pyStrip chat_data.message = "") (hk : ¬ s.GEMINI_API_KEY = "")
    (hfail : genSucceeds gen = false) :
    ∃ e : HTTPError, call_gemini_api gen = Except.error e ∧
      (chat s ragSystem history chat_data rag none gen t1 t2).response = Except.error e ∧
      (e.status_code = 504 ∨ e.status_code = 500) ∧
      ∀ ok : ChatOk,
        (chat s ragSystem history chat_data rag none gen t1 t2).response ≠ Except.ok ok := by
  cases gen with
  | success text => simp [genSucceeds] at hfail
  | timeout =>
      have hgen : call_gemini_api GenOutcome.timeout =
          Except.error { status_code := 504, detail := "Request timeout" } := rfl
      refine ⟨_, hgen, ?_, Or.inl rfl, ?_⟩
      · rw [chat_gen_error rag t1 t2 hm hk hgen]
      · intro ok
        rw [chat_gen_error rag t1 t2 hm hk hgen]
        simp
  | upstreamError status msg =>
      have hgen : call_gemini_api (GenOutcome.upstreamError status msg) =
          Except.error { status_code := 500, detail :=
            "API call failed: " ++ toString status ++ ": Gemini API error: " ++ msg } := rfl
      refine ⟨_, hgen, ?_, Or.inr rfl, ?_⟩
      · rw [chat_gen_error rag t1 t2 hm hk hgen]
      · intro ok
        rw [chat_gen_error rag t1 t2 hm hk hgen]
        simp
  | malformedPayload msg =>
      have hgen : call_gemini_api (GenOutcome.malformedPayload msg) =
          Except.error { status_code := 500, detail := "API call failed: " ++ msg } := rfl
      refine ⟨_, hgen, ?_, Or.inr rfl, ?_⟩
      · rw [chat_gen_error rag t1 t2 hm hk hgen]
      · intro ok
        rw [chat_gen_error rag t1 t2 hm hk hgen]
        simp
  | networkError msg =>
      have hgen : call_gemini_api (GenOutcome.networkError msg) =
          Except.error { status_code := 500, detail := "API call failed: " ++ msg } := rfl
      refine ⟨_, hgen, ?_, Or.inr rfl, ?_⟩
      · rw [chat_gen_error rag t1 t2 hm hk hgen]
      · intro ok
        rw [chat_gen_error rag t1 t2 hm hk hgen]
        simp

/-- Witness for C1: the concrete request `m` in study mode with a
configured key and an upstream timeout yields the 504 error, not a 200
fallback body. -/
theorem C1_generation_failure_witness :
    ∃ e : HTTPError, call_gemini_api GenOutcome.timeout = Except.error e ∧
      (chat testSettings true [] { message := "m", mode := "study", use_rag := false }
        (.snippets []) none GenOutcome.timeout 0 0).response = Except.error e ∧
      (e.status_code = 504 ∨ e.status_code = 500) ∧
      ∀ ok : ChatOk,
        (chat testSettings true [] { message := "m", mode := "study", use_rag := false }
          (.snippets []) none GenOutcome.timeout 0 0).response ≠ Except.ok ok :=
  C1_generation_failure_returns_error_not_fallback testSettings true []
    { message := "m", mode := "study", use_rag := false } (.snippets [])
    GenOutcome.timeout 0 0 (by decide) (by decide) rfl

/-- C2: the claim says every valid chat request appends exactly two Turns
(user then assistant) before returning.  On the generation-failure path
the code re-raises the `HTTPException` after appending the user turn and
before the assistant append, so exactly one Turn — the user turn — is
appended.  This theorem evaluates the code on that path. -/
theorem C2_generation_failure_appends_only_user_turn
    (s : Settings) (ragSystem : Bool) (history : List Turn) (chat_data : ChatMessage)
    (rag : RagOutcome) (gen : GenOutcome) (t1 t2 : Nat)
    (hm : ¬ pyStrip chat_data.message = "") (hk : ¬ s.GEMINI_API_KEY = "")
    (hfail : genSucceeds gen = false) :
    (chat s ragSystem history chat_data rag none gen t1 t2).conversation_history =
      history ++ [mkUserTurn history chat_data t1] := by
  cases gen with
  | success text => simp [genSucceeds] at hfail
  | timeout =>
      rw [chat_gen_error rag t1 t2 hm hk
        (rfl : call_gemini_api GenOutcome.timeout =
          Except.error { status_code := 504, detail := "Request timeout" })]
  | upstreamError status msg =>
      rw [chat_gen_error rag t1 t2 hm hk
        (rfl : call_gemini_api (GenOutcome.upstreamError status msg) =
          Except.error { status_code := 500, detail :=
            "API call failed: " ++ toString status ++ ": Gemini API error: " ++ msg })]
  | malformedPayload msg =>
      rw [chat_gen_error rag t1 t2 hm hk
        (rfl : call_gemini_api (GenOutcome.malformedPayload msg) =
          Except.error { status_code := 500, detail := "API call failed: " ++ msg })]
  | networkError msg =>
      rw [chat_gen_error rag t1 t2 hm hk
        (rfl : call_gemini_api (GenOutcome.networkError msg) =
          Except.error { status_code := 500, detail := "API call failed: " ++ msg })]

/-- Witness for C2 at the concrete timeout input: the log afterwards holds
the user turn only. -/
theorem C2_generation_failure_witness :
    (chat testSettings true [] { message := "m", mode := "study", use_rag := false }
      (.snippets []) none GenOutcome.timeout 0 0).conversation_history =
      [] ++ [mkUserTurn [] { message := "m", mode := "study", use_rag := false } 0] :=
  C2_generation_failure_appends_only_user_turn testSettings true []
    { message := "m", mode := "study", use_rag := false } (.snippets [])
    GenOutcome.timeout 0 0 (by decide) (by decide) rfl

/-- C3: the claim says every feedback submission with a rating in 1..5
appends one entry, with the store capped at 100.  Because the
`submit_feedback` body assigns `feedback_store` without a `global`
declaration, the `append` raises `UnboundLocalError` on every call: the
handler returns the generic 500 and the store is never touched (see the
doc comment on `submit_feedback`). -/
theorem C3_feedback_unbound_local (store : List FeedbackEntry) (feedback : Feedback)
    (t conversationLength : Nat) (h1 : 1 ≤ feedback.rating) (h5 : feedback.rating ≤ 5) :
    submit_feedback store feedback t conversationLength =
      (store, Except.error { status_code := 500, detail := "Internal server error" }) := rfl

/-- Witness for C3 at rating 3 on an empty store. -/
theorem C3_feedback_unbound_local_witness :
    submit_feedback [] { rating := 3, comment := none, message_id := none } 0 0 =
      ([], Except.error { status_code := 500, detail := "Internal server error" }) :=
  C3_feedback_unbound_local [] { rating := 3, comment := none, message_id := none } 0 0
    (by decide) (by decide)

set_option maxRecDepth 1000000 in
/-- C4 counterexample: after 27 successful chats (messages of one
character) the in-memory window holds ids 5,…,52,51,52 — the trim kept
ids up to 52 while new ids restarted at length+1 = 51 — so the ids in the
window are neither strictly increasing nor contiguous, refuting the
claimed invariant for reachable post-truncation states. -/
theorem C4_ids_counterexample :
    idsStrictMono (run testSettings C4trace).conversation_history = false ∧
    idsContiguous (run testSettings C4trace).conversation_history = false := by
  exact ⟨by decide, by decide⟩

/-- C4 amended: in every reachable state in which no request has yet
triggered the history trim, the Turn ids of the log are strictly
increasing and contiguous (in fact they are exactly 1,…,length). -/
theorem C4_ids_contiguous_until_truncation (s : Settings) (h : List Turn)
    (hr : ReachableNoTrim s h) :
    idsStrictMono h = true ∧ idsContiguous h = true := by
  have hids := reachableNoTrim_ids hr
  have hc : contiguousFrom (h.map Turn.id) = true := by
    rw [hids]
    exact contiguousFrom_range' h.length 1
  exact ⟨strictChain_of_contiguous (h.map Turn.id) hc, hc⟩

/-- Witness for the amended C4: the state after one successful chat from a
fresh log. -/
theorem C4_ids_witness :
    idsStrictMono (chat testSettings true []
        { message := "m", mode := "general", use_rag := false }
        (.snippets []) none (.success "r") 0 0).conversation_history = true ∧
    idsContiguous (chat testSettings true []
        { message := "m", mode := "general", use_rag := false }
        (.snippets []) none (.success "r") 0 0).conversation_history = true :=
  C4_ids_contiguous_until_truncation testSettings _
    (ReachableNoTrim.chatStep [] { message := "m", mode := "general", use_rag := false }
      (.snippets []) none (.success "r") 0 0 ReachableNoTrim.init (by decide))

set_option maxRecDepth 1000000 in
/-- C5: the claim says the log never exceeds `MAX_HISTORY_LENGTH` after a
handler completes.  Twenty-five successful chats legitimately fill the
log to exactly the maximum (50); one more chat whose generation call
fails then appends the user turn and re-raises before the trim statement,
leaving the log at 51 entries. -/
theorem C5_log_exceeds_max_on_generation_failure :
    (run testSettings (List.replicate 25 goodChatReq)).conversation_history.length =
      testSettings.MAX_HISTORY_LENGTH ∧
    testSettings.MAX_HISTORY_LENGTH <
      (run testSettings C5trace).conversation_history.length ∧
    (run testSettings C5trace).conversation_history.length = 51 := by
  exact ⟨by decide, by decide, by decide⟩

set_option maxRecDepth 1000000 in
/-- C6 counterexample: a `use_rag=true` request for which retrieval
returns zero snippets produces a prompt that contains the no-results
placeholder sentence verbatim (the guard at main.py line 293 skips the
context-block wrapper but leaves `rag_context` holding the sentence,
which line 299 interpolates into the prompt), refuting the claim that no
placeholder text reaches the prompt. -/
theorem C6_placeholder_counterexample :
    (chat testSettings true [] { message := "hello", mode := "general", use_rag := true }
        (.snippets []) none (.success "ok") 0 0).promptSent =
      some (SYSTEM_PROMPT ++ "\n\n" ++ "No relevant context found in knowledge base." ++
        "\n\nStudent: hello\n\nStudent: hello\n\nTutor:") := by
  rfl

/-- C6 amended: `use_rag=false` never invokes the Retrieval Collaborator,
and a `use_rag=true` request with zero snippets yields a prompt whose
retrieval slot is exactly the sentence
`No relevant context found in knowledge base.` — no
`[Relevant context from uploaded documents]` block is added, but that raw
placeholder sentence is passed through into the prompt. -/
theorem C6_amended_retrieval_behaviour (s : Settings) (ragSystem : Bool) (history : List Turn)
    (chat_data : ChatMessage) (rag : RagOutcome) (exc : Option String) (gen : GenOutcome)
    (t1 t2 : Nat) :
    (chat_data.use_rag = false →
      (chat s ragSystem history chat_data rag exc gen t1 t2).ragInvoked = false) ∧
    (¬ pyStrip chat_data.message = "" → ¬ s.GEMINI_API_KEY = "" → chat_data.use_rag = true →
      (chat s true history chat_data (.snippets []) none gen t1 t2).promptSent =
        some (mk_final_prompt (build_system_prompt chat_data.mode)
          "No relevant context found in knowledge base."
          (format_conversation_history (history ++ [mkUserTurn history chat_data t1]) 4)
          chat_data.message)) := by
  constructor
  · intro hrag
    by_cases hm : pyStrip chat_data.message = ""
    · rw [chat_empty_message rag exc gen t1 t2 hm]
    by_cases hk : s.GEMINI_API_KEY = ""
    · rw [chat_no_key rag exc gen t1 t2 hm hk]
    cases exc with
    | some m =>
        rw [chat_exotic rag m gen t1 t2 hm hk]
        rfl
    | none =>
        cases hgen : call_gemini_api gen with
        | error e =>
            rw [chat_gen_error rag t1 t2 hm hk hgen]
            simp [hrag]
        | ok text =>
            rw [chat_gen_ok rag t1 t2 hm hk hgen]
            simp [finishChat, hrag]
  · intro hm hk hrag
    have hctx : mk_rag_context (chat_data.use_rag && true) (.snippets []) =
        "No relevant context found in knowledge base." := by
      rw [hrag]
      rfl
    cases hgen : call_gemini_api gen with
    | error e =>
        rw [chat_gen_error (.snippets []) t1 t2 hm hk hgen, hctx]
    | ok text =>
        rw [chat_gen_ok (.snippets []) t1 t2 hm hk hgen]
        simp only [finishChat]
        rw [hctx]

/-- Witness for the amended C6: concrete requests with `use_rag=false`
(collaborator not invoked) and `use_rag=true` with zero snippets (prompt
carries the raw placeholder sentence, no context block). -/
theorem C6_retrieval_witness :
    (chat testSettings true [] { message := "q", mode := "general", use_rag := false }
        (.snippets []) none (.success "a") 0 0).ragInvoked = false ∧
    (chat testSettings true [] { message := "q", mode := "general", use_rag := true }
        (.snippets []) none (.success "a") 0 0).promptSent =
      some (mk_final_prompt (build_system_prompt "general")
        "No relevant context found in knowledge base."
        (format_conversation_history
          ([] ++ [mkUserTurn [] { message := "q", mode := "general", use_rag := true } 0]) 4)
        "q") :=
  ⟨(C6_amended_retrieval_behaviour testSettings true []
      { message := "q", mode := "general", use_rag := false } (.snippets []) none
      (.success "a") 0 0).1 rfl,
   (C6_amended_retrieval_behaviour testSettings true []
      { message := "q", mode := "general", use_rag := true } (.snippets []) none
      (.success "a") 0 0).2 (by decide) (by decide) rfl⟩

/-- C7 counterexample: with a log of exactly one user turn then one
assistant turn, `GET /history?limit=1&offset=0` returns the OLDEST entry
(the Python slice `[0:1]` takes from the front of the append-ordered
list): the single returned message is the user turn, not the most recent
assistant turn. -/
theorem C7_history_counterexample :
    (get_history [C7_user_turn, C7_assistant_turn] 1 0 none).messages = [C7_user_turn] ∧
    C7_user_turn.role = "user" ∧
    ¬ C7_user_turn.role = "assistant" ∧
    [C7_user_turn, C7_assistant_turn].getLast? = some C7_assistant_turn ∧
    ¬ C7_user_turn = C7_assistant_turn := by
  exact ⟨rfl, rfl, by decide, rfl, by decide⟩

/-- C7 amended: after a two-turn log (user then assistant),
`GET /history?limit=1&offset=0` returns exactly one message, the oldest
entry by append order — the user turn. -/
theorem C7_amended_oldest_first (u a : Turn) (hu : u.role = "user")
    (ha : a.role = "assistant") :
    get_history [u, a] 1 0 none =
      { messages := [u], total := 2, limit := 1, offset := 0, has_more := true } := rfl

/-- Witness for the amended C7 at the concrete two-turn log. -/
theorem C7_amended_witness :
    get_history [C7_user_turn, C7_assistant_turn] 1 0 none =
      { messages := [C7_user_turn], total := 2, limit := 1, offset := 0, has_more := true } :=
  C7_amended_oldest_first C7_user_turn C7_assistant_turn rfl rfl

set_option maxRecDepth 1000000 in
/-- C8 counterexample: the user turn is appended BEFORE the history is
formatted (main.py line 279 before line 284), so with an empty prior log
the history block of the prompt is `Student: hello` — the current
message, which then appears again under the final `Student:` label —
whereas formatting only the prior turns would give an empty block. -/
theorem C8_prompt_counterexample :
    (chat testSettings true [] { message := "hello", mode := "general", use_rag := false }
        (.snippets []) none (.success "ok") 0 0).promptSent =
      some (SYSTEM_PROMPT ++ "\n\n" ++ "" ++ "\n\n" ++ "Student: hello" ++
        "\n\nStudent: hello\n\nTutor:") ∧
    format_conversation_history [] 4 = "" := by
  exact ⟨rfl, rfl⟩

/-- C8 amended: for every validated request the prompt handed to the
generation call is exactly system prompt, retrieval slot, the last 4
entries of the log AFTER the current user turn has been appended
(rendered as Student:/Tutor: lines, so the current message appears in the
history block too), the new message under a `Student:` label, and the
trailing `Tutor:` cue, in that fixed order. -/
theorem C8_amended_prompt_assembly (s : Settings) (ragSystem : Bool) (history : List Turn)
    (chat_data : ChatMessage) (rag : RagOutcome) (gen : GenOutcome) (t1 t2 : Nat)
    (hm : ¬ pyStrip chat_data.message = "") (hk : ¬ s.GEMINI_API_KEY = "") :
    (chat s ragSystem history chat_data rag none gen t1 t2).promptSent =
      some (mk_final_prompt (build_system_prompt chat_data.mode)
        (mk_rag_context (chat_data.use_rag && ragSystem) rag)
        (format_conversation_history (history ++ [mkUserTurn history chat_data t1]) 4)
        chat_data.message) := by
  cases hgen : call_gemini_api gen with
  | error e => rw [chat_gen_error rag t1 t2 hm hk hgen]
  | ok text =>
      rw [chat_gen_ok rag t1 t2 hm hk hgen]
      rfl

/-- Witness for the amended C8 at a concrete request. -/
theorem C8_prompt_witness :
    (chat testSettings true [] { message := "hello", mode := "general", use_rag := false }
        (.snippets []) none (.success "ok") 0 0).promptSent =
      some (mk_final_prompt (build_system_prompt "general")
        (mk_rag_context (false && true) (.snippets []))
        (format_conversation_history
          ([] ++ [mkUserTurn [] { message := "hello", mode := "general", use_rag := false } 0]) 4)
        "hello") :=
  C8_amended_prompt_assembly testSettings true []
    { message := "hello", mode := "general", use_rag := false } (.snippets [])
    (.success "ok") 0 0 (by decide) (by decide)

/-- C9: `DELETE /history` without `confirm=true` fails with 400 and the
log is returned unchanged; with `confirm=true` the log becomes empty and
`cleared_count` is the length immediately before clearing. -/
theorem C9_clear_history_behaviour (history : List Turn) :
    clear_history history false =
      (history, Except.error
        { status_code := 400
          detail := "Must confirm deletion by adding ?confirm=true to URL" }) ∧
    clear_history history true =
      ([], Except.ok { success := true, cleared_count := history.length }) :=
  ⟨rfl, rfl⟩

/-- C10: a chat request rejected before generation — message empty after
trimming (400) or no configured credential (500) — leaves the
conversation log completely unchanged: no user turn is appended and no
trim occurs, and no retrieval or generation call is made. -/
theorem C10_rejected_chat_leaves_state_unchanged
    (s : Settings) (ragSystem : Bool) (history : List Turn) (chat_data : ChatMessage)
    (rag : RagOutcome) (exc : Option String) (gen : GenOutcome) (t1 t2 : Nat) :
    (pyStrip chat_data.message = "" →
      chat s ragSystem history chat_data rag exc gen t1 t2 =
        { conversation_history := history
          response := .error { status_code := 400, detail := "Message cannot be empty" }
          ragInvoked := false
          promptSent := none }) ∧
    (¬ pyStrip chat_data.message = "" → s.GEMINI_API_KEY = "" →
      chat s ragSystem history chat_data rag exc gen t1 t2 =
        { conversation_history := history
          response := .error
            { status_code := 500
              detail := "Gemini API key not configured. Please set GEMINI_API_KEY in .env file." }
          ragInvoked := false
          promptSent := none }) := by
  constructor
  · intro hm
    exact chat_empty_message rag exc gen t1 t2 hm
  · intro hm hk
    exact chat_no_key rag exc gen t1 t2 hm hk

/-- Witness for C10: a whitespace-only message against a configured key
(400 path) and a non-empty message against a missing key (500 path), both
leaving a one-turn log untouched. -/
theorem C10_rejected_chat_witness :
    chat testSettings true C10_history { message := "   ", mode := "general", use_rag := false }
      (.snippets []) none (.success "r") 0 0 =
      { conversation_history := C10_history
        response := .error { status_code := 400, detail := "Message cannot be empty" }
        ragInvoked := false
        promptSent := none } ∧
    chat noKeySettings true C10_history { message := "hi", mode := "general", use_rag := false }
      (.snippets []) none (.success "r") 0 0 =
      { conversation_history := C10_history
        response := .error
          { status_code := 500
            detail := "Gemini API key not configured. Please set GEMINI_API_KEY in .env file." }
        ragInvoked := false
        promptSent := none } :=
  ⟨(C10_rejected_chat_leaves_state_unchanged testSettings true C10_history
      { message := "   ", mode := "general", use_rag := false } (.snippets []) none
      (.success "r") 0 0).1 (by decide),
   (C10_rejected_chat_leaves_state_unchanged noKeySettings true C10_history
      { message := "hi", mode := "general", use_rag := false } (.snippets []) none
      (.success "r") 0 0).2 (by decide) rfl⟩

end StudyBuddy
